import Mathlib

/-!
# Verification of the CrowdShield evacuation-support core

Shallow embedding of the hazard-aware routing and risk-fusion engine of the
repository (files `src/routing.py`, `src/fusion_engine.py`,
`src/risk_disaster.py`, `src/risk_crowd.py` and the routing / navigation
blocks of `app.py`), together with proofs of the specified properties.

Conventions of the embedding:
* Python floats are embedded as exact rationals (`ℚ`).
* Python `None` and exceptions are embedded as `Option`.
* Python dynamic typing of the graph argument is embedded as the inductive
  `GraphArg`, whose constructors mirror the runtime type tests the source
  performs (`G is None`, `isinstance(G, nx.Graph)`, everything else).
-/

namespace CrowdShield

/-- A (lat, lon) coordinate pair, as used throughout `routing.py`. -/
abbrev Coord := ℚ × ℚ

/-- A (lon, lat) point as built by `shapely.Point(lon, lat)` in
`block_edges_by_hazards`. -/
abbrev LonLat := ℚ × ℚ

/-! ## Fusion engine (`src/fusion_engine.py`) -/

/-- An optional translation table, embedding the `i18n` dict parameter as an
association list. -/
abbrev I18n := List (String × String)

/-- The helper `_(key, default)` of `fuse` (fusion_engine.py:11-14): fetch a
translation or fall back to the default. A `none` table embeds both Python
`None` and non-dict values; an empty list embeds the falsy empty dict (both
yield the default, as in the source). -/
def tr (i18n : Option I18n) (key default : String) : String :=
  match i18n with
  | some m => ((m.lookup key).getD default)
  | none => default

/-- The combiner `fuse(disaster_score, crowd_score, i18n=None)`
(fusion_engine.py:6-43):
combined score `max(disaster_score, crowd_score * 0.9)`, then the severity
tier and recommendation list are chosen by the threshold chain
0.2 / 0.5 / 0.8. -/
def fuse (disaster_score crowd_score : ℚ) (i18n : Option I18n := none) :
    String × List String :=
  let combined := max disaster_score (crowd_score * (9/10))
  if combined < 2/10 then
    (tr i18n "low" "Low",
      [tr i18n "rec_monitor" "Monitor conditions",
       tr i18n "rec_updates" "Send updates to residents"])
  else if combined < 5/10 then
    (tr i18n "medium" "Medium",
      [tr i18n "rec_prepare" "Prepare shelters",
       tr i18n "rec_limit" "Advise limited movement"])
  else if combined < 8/10 then
    (tr i18n "high" "High",
      [tr i18n "rec_evac" "Activate evacuation protocol",
       tr i18n "rec_vulnerable" "Prioritize vulnerable groups"])
  else
    (tr i18n "critical" "Critical",
      [tr i18n "rec_immediate" "Immediate evacuation",
       tr i18n "rec_services" "Deploy emergency services",
       tr i18n "rec_broadcast" "Activate emergency broadcast"])

/-- Rank of a severity tier under the order Low < Medium < High < Critical
(the order the spec postulates on the four default English labels). -/
def tierRank (tier : String) : ℕ :=
  if tier = "Low" then 0
  else if tier = "Medium" then 1
  else if tier = "High" then 2
  else 3

/-- Helper: the tier returned by `fuse` with the default labels, as a pure
function of the scores. -/
theorem fuse_fst_eq (d c : ℚ) :
    (fuse d c none).1 =
      (if max d (c * (9/10)) < 2/10 then "Low"
       else if max d (c * (9/10)) < 5/10 then "Medium"
       else if max d (c * (9/10)) < 8/10 then "High"
       else "Critical") := by
  simp only [fuse, tr]
  split_ifs <;> rfl

/-- Helper: rank of the tier of a combined score, as a step function. -/
theorem tierRank_fuse (d c : ℚ) :
    tierRank (fuse d c none).1 =
      (if max d (c * (9/10)) < 2/10 then 0
       else if max d (c * (9/10)) < 5/10 then 1
       else if max d (c * (9/10)) < 8/10 then 2
       else 3) := by
  rw [fuse_fst_eq]
  split_ifs <;> rfl

/-! ## Disaster risk scorer (`src/risk_disaster.py`) -/

/-- Threshold table for one signal, as in the default dict of
`_load_thresholds` (risk_disaster.py:14-17). -/
structure Thresholds where
  low : ℚ
  medium : ℚ
  high : ℚ
deriving DecidableEq, Repr

/-- Default rainfall thresholds (risk_disaster.py:15), used when no
`configs/thresholds.yaml` is present. -/
def default_rainfall_thresholds : Thresholds := ⟨10, 25, 50⟩

/-- Default wind thresholds (risk_disaster.py:16). -/
def default_wind_thresholds : Thresholds := ⟨20, 40, 80⟩

/-- The weather dict as read by `score_disaster` (risk_disaster.py:25-26):
`weather.get("rainfall_mm", 0)` and `weather.get("wind_kph", 0)` are embedded
as total fields, a missing key being the default 0. -/
structure Weather where
  rainfall_mm : ℚ := 0
  wind_kph : ℚ := 0
deriving DecidableEq, Repr

/-- A driver string appended by `score_disaster`; each constructor stands for
the corresponding f-string of risk_disaster.py:34-49 with its interpolated
measurement kept as data (the surrounding literal text is fixed in the
source). -/
inductive DisasterDriver where
  | severeRainfall (rainfall : ℚ)
  | moderateRainfall (rainfall : ℚ)
  | lowRainfall (rainfall : ℚ)
  | highWinds (wind : ℚ)
  | moderateWinds (wind : ℚ)
  | lowWinds (wind : ℚ)
deriving DecidableEq, Repr

/-- The scorer `score_disaster(weather, trigger_flood=False)`
(risk_disaster.py:19-51)
on the default-threshold path (no configuration file present, the situation
the claims condition on): rainfall contributes 0.6 / 0.3 / 0, wind
contributes 0.4 / 0.15 / 0, the sum is clamped to 1.0, and every branch
records a driver. -/
def score_disaster (weather : Weather) (trigger_flood : Bool := false) :
    ℚ × List DisasterDriver :=
  let t_rain := default_rainfall_thresholds
  let t_wind := default_wind_thresholds
  let rainfall := weather.rainfall_mm
  let wind := weather.wind_kph
  let rainPart :=
    if rainfall ≥ t_rain.high ∨ trigger_flood = true then
      ((6:ℚ)/10, [DisasterDriver.severeRainfall rainfall])
    else if rainfall ≥ t_rain.medium then
      ((3:ℚ)/10, [DisasterDriver.moderateRainfall rainfall])
    else ((0:ℚ), [DisasterDriver.lowRainfall rainfall])
  let windPart :=
    if wind ≥ t_wind.high then ((4:ℚ)/10, [DisasterDriver.highWinds wind])
    else if wind ≥ t_wind.medium then
      ((15:ℚ)/100, [DisasterDriver.moderateWinds wind])
    else ((0:ℚ), [DisasterDriver.lowWinds wind])
  (min 1 (rainPart.1 + windPart.1), rainPart.2 ++ windPart.2)

/-! ## Crowd risk scorer (`src/risk_crowd.py`) -/

/-- Default crowd-density thresholds (risk_crowd.py:16), used when the
configuration file cannot be read. -/
def default_crowd_thresholds : Thresholds := ⟨1/2, 2, 4⟩

/-- A pandas DataFrame as consumed by `score_crowd`: a list of column names
and the rows, each row an association of column name to numeric value. -/
structure DataFrame where
  columns : List String
  rows : List (List (String × ℚ))
deriving DecidableEq, Repr

/-- The pandas property `df.empty`: true when either axis has length
zero. -/
def DataFrame.isEmptyDf (df : DataFrame) : Bool :=
  df.rows.isEmpty || df.columns.isEmpty

/-- Sum of the `people` column, `crowd_df["people"].sum()`: a missing cell
contributes 0. -/
def DataFrame.peopleSum (df : DataFrame) : ℚ :=
  df.rows.foldl (fun acc r => acc + ((r.lookup "people").getD 0)) 0

/-- Python `int(q)`: truncation toward zero, which is what `Int` division
by the denominator gives. -/
def pyInt (q : ℚ) : ℤ := q.num / (q.den : ℤ)

/-- A driver string appended by `score_crowd`; constructors stand for the
strings of risk_crowd.py:27-48 with interpolated values kept as data. -/
inductive CrowdDriver where
  | noData
  | missingPeople
  | densityInfo (density : ℚ)
  | totalPeople (n : ℤ)
  | highDensity
  | moderateDensity
  | lowDensity
deriving DecidableEq, Repr

/-- The scorer `score_crowd(crowd_df, trigger_surge=False, area_m2=1000.0)`
(risk_crowd.py:18-50) on the default-threshold path: `None` or empty input
and a missing `people` column return score 0.0 with a single explanatory
driver; otherwise the density heuristic scores 0.7 / 0.35 / 0 and the result
is clamped to 1.0. -/
def score_crowd (crowd_df : Option DataFrame) (trigger_surge : Bool := false)
    (area_m2 : ℚ := 1000) : ℚ × List CrowdDriver :=
  let t := default_crowd_thresholds
  match crowd_df with
  | none => (0, [CrowdDriver.noData])
  | some df =>
    if df.isEmptyDf then (0, [CrowdDriver.noData])
    else if ¬ df.columns.contains "people" then (0, [CrowdDriver.missingPeople])
    else
      let total_people : ℤ := pyInt df.peopleSum
      let density : ℚ := (total_people : ℚ) / area_m2
      let drivers := [CrowdDriver.densityInfo density, CrowdDriver.totalPeople total_people]
      if trigger_surge = true ∨ density ≥ t.high then
        (min 1 (7/10), drivers ++ [CrowdDriver.highDensity])
      else if density ≥ t.medium then
        (min 1 (35/100), drivers ++ [CrowdDriver.moderateDensity])
      else (min 1 0, drivers ++ [CrowdDriver.lowDensity])

/-! ## Turn-direction classification (`app.py`, `generate_voice_navigation`) -/

/-- Python float `%` with a positive divisor: result carries the sign of the
divisor, i.e. `a - b * floor(a / b)`. Embeds the `% 360` of app.py:471. -/
def pyMod (a b : ℚ) : ℚ := a - b * ⌊a / b⌋

/-- The expression `turn_angle = (bearing - prev_bearing + 360) % 360`
(app.py:471). -/
def turnAngle (bearing prev_bearing : ℚ) : ℚ :=
  pyMod (bearing - prev_bearing + 360) 360

/-- The turn-direction chain of app.py:474-491, verbatim: note the first
branch tests `turn_angle > 337.5` strictly, and the final `else` yields the
bare `"Continue"`. -/
def direction (turn_angle : ℚ) : String :=
  if turn_angle > 337.5 ∨ turn_angle < 22.5 then "Continue straight ahead"
  else if 22.5 ≤ turn_angle ∧ turn_angle < 67.5 then "Turn slightly right"
  else if 67.5 ≤ turn_angle ∧ turn_angle < 112.5 then "Turn right"
  else if 112.5 ≤ turn_angle ∧ turn_angle < 157.5 then "Turn sharp right"
  else if 157.5 ≤ turn_angle ∧ turn_angle < 202.5 then "Make a U-turn"
  else if 202.5 ≤ turn_angle ∧ turn_angle < 247.5 then "Turn sharp left"
  else if 247.5 ≤ turn_angle ∧ turn_angle < 292.5 then "Turn left"
  else if 292.5 ≤ turn_angle ∧ turn_angle < 337.5 then "Turn slightly left"
  else "Continue"

/-- How many of the eight named direction buckets (the eight conditions of
app.py:474-489, taken as standalone predicates) an angle satisfies. -/
def bucketCount (a : ℚ) : ℕ :=
  (if a > 337.5 ∨ a < 22.5 then 1 else 0) +
  (if 22.5 ≤ a ∧ a < 67.5 then 1 else 0) +
  (if 67.5 ≤ a ∧ a < 112.5 then 1 else 0) +
  (if 112.5 ≤ a ∧ a < 157.5 then 1 else 0) +
  (if 157.5 ≤ a ∧ a < 202.5 then 1 else 0) +
  (if 202.5 ≤ a ∧ a < 247.5 then 1 else 0) +
  (if 247.5 ≤ a ∧ a < 292.5 then 1 else 0) +
  (if 292.5 ≤ a ∧ a < 337.5 then 1 else 0)

/-! ## Routing (`src/routing.py`) -/

/-- A node identifier of a networkx graph. Grid graphs built by
`nx.grid_2d_graph` use integer-pair tuples as node ids; fetched OSM graphs
use plain integer ids. The `isinstance(node, tuple)` tests of the source
dispatch on this distinction. -/
inductive Node where
  | tup (i j : ℤ)
  | osm (n : ℕ)
deriving DecidableEq, Repr

/-- An edge of a networkx graph with the data attributes the source
consults: an optional stored geometry (only its centroid is ever read, as a
(lon, lat) point) and the `length` attribute. -/
structure Edge where
  u : Node
  v : Node
  geomCentroid : Option LonLat := none
  length : Option ℚ := none
deriving DecidableEq, Repr

/-- A networkx graph: node list, per-node `y` (latitude) and `x` (longitude)
attributes — the accessor embeds the `get("x", get("lon", None))` chains of
the source — and an undirected edge list. -/
structure NXGraph where
  nodes : List Node
  attrY : Node → Option ℚ
  attrX : Node → Option ℚ
  edges : List Edge

/-- Distance stand-in for `_haversine_km` (routing.py:42-51). The source
computes the great-circle distance with trigonometric functions, which have
no exact computable embedding; every claim below depends only on this being
a fixed deterministic point-to-point distance with `d(p, p) = 0` and
`d(p, q) > 0` for distinct nearby points — properties the great-circle
distance shares on the demo coordinate ranges involved — so the embedding
uses the squared Euclidean distance on the coordinates. -/
def haversine_km (p1 p2 : Coord) : ℚ :=
  (p2.1 - p1.1) * (p2.1 - p1.1) + (p2.2 - p1.2) * (p2.2 - p1.2)

/-- Coordinate of a node as `_nearest_node_in_graph` resolves it
(routing.py:263-266): a tuple node id is its own (lat, lon); otherwise the
`y`/`x` attributes with default 0.0. -/
def nodeLookupCoord (g : NXGraph) (n : Node) : Coord :=
  match n with
  | .tup i j => ((i : ℚ), (j : ℚ))
  | .osm _ => ((g.attrY n).getD 0, (g.attrX n).getD 0)

/-- The scan of `_nearest_node_in_graph` (routing.py:253-276): keep the
first node that strictly improves the distance to the query point. The
result is `none` exactly when the node list is empty; there the source
returns the query coordinate itself, on which the subsequent
`nx.shortest_path` call raises `NodeNotFound` — embedded downstream as the
fallback branch. -/
def nearest_node (g : NXGraph) (coord : Coord) : Option Node :=
  (g.nodes.foldl (fun best n =>
    let d := haversine_km coord (nodeLookupCoord g n)
    match best with
    | none => some (n, d)
    | some (bn, bd) => if d < bd then some (n, d) else some (bn, bd)) none).map
    Prod.fst

/-- Undirected adjacency from the edge list. -/
def neighbors (g : NXGraph) (n : Node) : List Node :=
  g.edges.filterMap (fun e =>
    if e.u = n then some e.v else if e.v = n then some e.u else none)

/-- Fuelled breadth-first search over paths; queue entries pair the frontier
node with the reversed path that reached it. -/
def bfsAux (g : NXGraph) :
    ℕ → List (Node × List Node) → List Node → Node → Option (List Node)
  | 0, _, _, _ => none
  | _ + 1, [], _, _ => none
  | fuel + 1, (n, path) :: queue, visited, tgt =>
    if n = tgt then some path.reverse
    else
      let nbrs := (neighbors g n).filter (fun m => ¬ visited.contains m)
      bfsAux g fuel (queue ++ nbrs.map (fun m => (m, m :: path)))
        (visited ++ nbrs) tgt

/-- The call `nx.shortest_path(G, src, dst, ...)` (routing.py:292-294),
embedded as breadth-first search. The source runs Dijkstra over the
`length` weight and retries unweighted on error; the claims below depend
only on the existence, non-emptiness and endpoints of the returned path —
on which the algorithms agree — and on the degenerate case
`shortest_path(G, s, s) = [s]`, which networkx returns whenever source
equals target. `none` embeds the `NodeNotFound` and `NetworkXNoPath`
exceptions. -/
def shortest_path (g : NXGraph) (src dst : Node) : Option (List Node) :=
  if src ∈ g.nodes ∧ dst ∈ g.nodes then
    bfsAux g (g.nodes.length * g.nodes.length + 1) [(src, [src])] [src] dst
  else none

/-- A hazard geometry, embedded by its observable behaviour in
`block_edges_by_hazards`: a containment predicate on (lon, lat) points (the
source calls `poly.contains(Point(lon, lat))`). -/
abbrev Hazard := LonLat → Bool

/-- A Python value flowing into the graph parameter of the routing entry
points. The source dispatches on `G is None` and `isinstance(G, nx.Graph)`;
any other value — the dict fallback of `build_grid_graph`, or the
`(graph, blocked_count)` tuple returned by `block_edges_by_hazards` and
bound to `G_blocked` in app.py:727 — takes the residual fallback branch. -/
inductive GraphArg where
  | null
  | nxg (g : NXGraph)
  | dict (nodes : List Node)
  | tup2 (g : GraphArg) (blocked : ℕ)

/-- Whether the argument is an `nx.Graph` instance. -/
def GraphArg.isNxGraph : GraphArg → Bool
  | .nxg _ => true
  | _ => false

/-- Edge list visible on a graph argument (non-graph values carry none). -/
def GraphArg.edgeList : GraphArg → List Edge
  | .nxg g => g.edges
  | _ => []

/-- The fallback `grid_route_fallback(origin, target, steps=30)`
(routing.py:335-343): straight-line interpolation in `steps + 1` points. -/
def grid_route_fallback (origin target : Coord) (steps : ℕ := 30) :
    List Coord :=
  (List.range (steps + 1)).map (fun (i : ℕ) =>
    (origin.1 + (target.1 - origin.1) * (i : ℚ) / (steps : ℚ),
     origin.2 + (target.2 - origin.2) * (i : ℚ) / (steps : ℚ)))

/-- Coordinate extraction for a path node in `compute_shortest_path`
(routing.py:296-302): tuple node ids are converted directly, other nodes
read `y`/`x` with the origin's coordinates as defaults. -/
def pathNodeCoord (g : NXGraph) (origin : Coord) (n : Node) : Coord :=
  match n with
  | .tup i j => ((i : ℚ), (j : ℚ))
  | .osm _ => ((g.attrY n).getD origin.1, (g.attrX n).getD origin.2)

/-- The entry point `compute_shortest_path(G, origin, target)`
(routing.py:279-308): straight-line fallback for a null graph, nearest-node
snapping plus graph search for a networkx graph (with fallback on any
search failure or empty coordinate list), and the fallback for every other
argument. -/
def compute_shortest_path (G : GraphArg) (origin target : Coord) :
    List Coord :=
  match G with
  | .null => grid_route_fallback origin target
  | .nxg g =>
    match nearest_node g origin, nearest_node g target with
    | some src, some dst =>
      match shortest_path g src dst with
      | some path =>
        let coords := path.map (pathNodeCoord g origin)
        if coords.isEmpty then grid_route_fallback origin target else coords
      | none => grid_route_fallback origin target
    | _, _ => grid_route_fallback origin target
  | _ => grid_route_fallback origin target

/-- The entry point `compute_fastest_path` (routing.py:311-315): identical
to the shortest path by definition. -/
def compute_fastest_path (G : GraphArg) (origin target : Coord) :
    List Coord :=
  compute_shortest_path G origin target

/-- Representative point of an edge as computed in `block_edges_by_hazards`
(routing.py:186-227), a (lon, lat) point: the stored geometry's centroid
when present; else the mean of the `x`/`y` attributes when all four are
present; else the tuple-id / attribute-default fallback of
routing.py:204-215. -/
def edgeMidpoint (g : NXGraph) (e : Edge) : LonLat :=
  match e.geomCentroid with
  | some c => c
  | none =>
    match g.attrX e.u, g.attrY e.u, g.attrX e.v, g.attrY e.v with
    | some ux, some uy, some vx, some vy => ((ux + vx) / 2, (uy + vy) / 2)
    | _, _, _, _ =>
      let uLat : Coord :=
        match e.u with
        | .tup i j => ((i : ℚ), (j : ℚ))
        | .osm _ => ((g.attrY e.u).getD 0, (g.attrX e.u).getD 0)
      let vLat : Coord :=
        match e.v with
        | .tup i j => ((i : ℚ), (j : ℚ))
        | .osm _ => ((g.attrY e.v).getD 0, (g.attrX e.v).getD 0)
      ((uLat.2 + vLat.2) / 2, (uLat.1 + vLat.1) / 2)

/-- Whether some hazard contains the representative point of the edge
(routing.py:228-242, first-match short-circuit: the edge is removed exactly
when at least one geometry contains the midpoint). -/
def edgeBlocked (g : NXGraph) (hs : List Hazard) (e : Edge) : Bool :=
  hs.any (fun h => h (edgeMidpoint g e))

/-- The pruner `block_edges_by_hazards(G, hazard_polygons)`
(routing.py:168-250): `(G, 0)` for a null graph or null/empty hazards, a
copied graph minus the blocked edges (with their count) for a networkx
graph, and `(G, 0)` for every other argument (dict fallback branch). -/
def block_edges_by_hazards (G : GraphArg)
    (hazard_polygons : Option (List Hazard)) : GraphArg × ℕ :=
  match G, hazard_polygons with
  | .null, _ => (.null, 0)
  | _, none => (G, 0)
  | .nxg g, some hs =>
    if hs.isEmpty then (.nxg g, 0)
    else
      (.nxg { g with edges := g.edges.filter (fun e => ¬ edgeBlocked g hs e) },
        (g.edges.filter (fun e => edgeBlocked g hs e)).length)
  | _, some _ => (G, 0)

/-- The entry point `compute_safest_path(G, origin, target, hazards)`
(routing.py:318-332): straight-line fallback for a null graph, otherwise
prune hazardous edges and run the shortest-path computation on the result
(the pruned value is never `None`, so the `G_use` guard always picks it). -/
def compute_safest_path (G : GraphArg) (origin target : Coord)
    (hazards : Option (List Hazard)) : List Coord :=
  match G with
  | .null => grid_route_fallback origin target
  | _ =>
    let pruned := block_edges_by_hazards G hazards
    compute_shortest_path pruned.1 origin target

/-! ## Graph provider (`load_graph` / `build_grid_graph`) -/

/-- Coordinate assigned to grid node `(i, j)` by `build_grid_graph`
(routing.py:101-118): reference-offset placement with spacing 0.005° and
offset `size // 2` when a center is supplied, raw indices otherwise. -/
def gridCoord (size : ℕ) (center_point : Option Coord) (i j : ℤ) : Coord :=
  match center_point with
  | some (latc, lonc) =>
    let offset : ℤ := (size / 2 : ℕ)
    (latc + ((i - offset : ℤ) : ℚ) * (5 / 1000),
     lonc + ((j - offset : ℤ) : ℚ) * (5 / 1000))
  | none => ((i : ℚ), (j : ℚ))

/-- Node list of `nx.grid_2d_graph(size, size)`, row-major. -/
def gridNodes (size : ℕ) : List Node :=
  (List.range size).flatMap (fun (i : ℕ) =>
    (List.range size).map (fun (j : ℕ) => Node.tup (i : ℤ) (j : ℤ)))

/-- The synthesizer `build_grid_graph(size=10, center_point=None)`
(routing.py:83-127), assuming networkx is importable (the dict fallback of
routing.py:92-98 is a separate `GraphArg.dict` value): a `size × size`
lattice whose nodes carry the `gridCoord` attributes and whose 4-neighbor
edges carry a haversine `length`. -/
def build_grid_graph (size : ℕ := 10) (center_point : Option Coord := none) :
    NXGraph :=
  let coordOf : Node → Option Coord := fun n =>
    match n with
    | .tup i j =>
      if 0 ≤ i ∧ i < (size : ℤ) ∧ 0 ≤ j ∧ j < (size : ℤ) then
        some (gridCoord size center_point i j)
      else none
    | .osm _ => none
  let mkEdge : Node → Node → Edge := fun u v =>
    { u := u, v := v, geomCentroid := none,
      length :=
        match coordOf u, coordOf v with
        | some a, some b => some (haversine_km a b)
        | _, _ => none }
  { nodes := gridNodes size,
    attrY := fun n => (coordOf n).map Prod.fst,
    attrX := fun n => (coordOf n).map Prod.snd,
    edges :=
      (List.range size).flatMap (fun (i : ℕ) =>
        (List.range size).flatMap (fun (j : ℕ) =>
          (if i + 1 < size then
            [mkEdge (Node.tup (i : ℤ) (j : ℤ))
              (Node.tup ((i : ℤ) + 1) (j : ℤ))] else []) ++
          (if j + 1 < size then
            [mkEdge (Node.tup (i : ℤ) (j : ℤ))
              (Node.tup (i : ℤ) ((j : ℤ) + 1))] else []))) }

/-- The documented default reference point of `load_graph`
(routing.py:68). -/
def reference_point : Coord := (9931233 / 1000000, 76267304 / 1000000)

/-- The provider `load_graph(online=True, center_point=None, dist=1500)`
(routing.py:54-80), with networkx importable and the OSMnx fetch embedded
as an oracle `fetch : Coord → Option NXGraph` (`some` a successful
`graph_from_point`, `none` any fetch exception); `oxAvailable` embeds
whether the osmnx import succeeded. The online fetch centers at
`center_point or (9.931233, 76.267304)`; the grid fallback is built from
the original `center_point` argument. -/
def load_graph (oxAvailable online : Bool) (fetch : Coord → Option NXGraph)
    (center_point : Option Coord := none) : GraphArg :=
  if oxAvailable = true ∧ online = true then
    match fetch (center_point.getD reference_point) with
    | some G => .nxg G
    | none => .nxg (build_grid_graph 10 center_point)
  else .nxg (build_grid_graph 10 center_point)

/-! ## The app routing block (`app.py:727-740`) -/

/-- Route mode selection of the app (`effective_route_mode`). -/
inductive RouteMode where
  | shortest
  | fastest
  | safest
deriving DecidableEq, Repr

/-- The routing block of app.py:727-740, executed when a graph was loaded:
`G_blocked` is bound to the raw return value of `block_edges_by_hazards` —
the `(graph, blocked_count)` tuple, embedded by `GraphArg.tup2` — whenever
`hazards is not None`, and to `G` otherwise; the mode dispatches to the
compute functions (all three are present on the module, so the `hasattr`
guards pass), and a result with fewer than 2 points is replaced by
`grid_route_fallback`. -/
def app_route_block (G : GraphArg) (hazards : Option (List Hazard))
    (mode : RouteMode) (origin target : Coord) : List Coord :=
  let G_blocked : GraphArg :=
    match hazards with
    | some _ =>
      let r := block_edges_by_hazards G hazards
      .tup2 r.1 r.2
    | none => G
  let route :=
    match mode with
    | .shortest => compute_shortest_path G_blocked origin target
    | .fastest => compute_fastest_path G_blocked origin target
    | .safest => compute_safest_path G_blocked origin target hazards
  if route.isEmpty ∨ route.length < 2 then grid_route_fallback origin target
  else route

/-! ## Claims about the fusion engine and the risk scorers -/

/-- C2: `fuse` combines the scores as `max(disaster_score, crowd_score*0.9)`
and tiers the result at 0.2 / 0.5 / 0.8 into Low / Medium / High / Critical
(default English labels with no i18n table); in particular
`fuse(0.1, 0.1)` is Low and `fuse(0.0, 0.9)` is Critical. -/
theorem C2_fuse_tier_boundaries (d c : ℚ) :
    (fuse d c none).1 =
      (if max d (c * (9/10)) < 2/10 then "Low"
       else if max d (c * (9/10)) < 5/10 then "Medium"
       else if max d (c * (9/10)) < 8/10 then "High"
       else "Critical")
    ∧ (fuse (1/10) (1/10) none).1 = "Low"
    ∧ (fuse 0 (9/10) none).1 = "Critical" :=
  ⟨fuse_fst_eq d c,
   by rw [fuse_fst_eq]; norm_num [max_def],
   by rw [fuse_fst_eq]; norm_num [max_def]⟩

/-- Helper: the four-step tier rank is monotone in the combined score. -/
theorem stepRank_mono (x y : ℚ) (h : x ≤ y) :
    (if x < 2/10 then 0 else if x < 5/10 then 1 else if x < 8/10 then 2
      else (3:ℕ)) ≤
    (if y < 2/10 then 0 else if y < 5/10 then 1 else if y < 8/10 then 2
      else 3) := by
  split_ifs <;> (try norm_num) <;> linarith

/-- C7: `fuse` is monotone in each argument for the order
Low < Medium < High < Critical on tiers. -/
theorem C7_fuse_monotone (d1 d2 c1 c2 : ℚ) :
    (d1 ≤ d2 →
      tierRank (fuse d1 c1 none).1 ≤ tierRank (fuse d2 c1 none).1)
    ∧ (c1 ≤ c2 →
      tierRank (fuse d1 c1 none).1 ≤ tierRank (fuse d1 c2 none).1) := by
  constructor <;> intro h <;> rw [tierRank_fuse, tierRank_fuse]
  · exact stepRank_mono _ _ (max_le_max h le_rfl)
  · refine stepRank_mono _ _ (max_le_max le_rfl ?_)
    exact mul_le_mul_of_nonneg_right h (by norm_num)

/-- Witness for C7 at concrete scores. -/
theorem C7_fuse_monotone_witness :
    tierRank (fuse 0 0 none).1 ≤ tierRank (fuse 1 0 none).1
    ∧ tierRank (fuse 0 0 none).1 ≤ tierRank (fuse 0 1 none).1 :=
  ⟨(C7_fuse_monotone 0 1 0 0).1 (by norm_num),
   (C7_fuse_monotone 0 0 0 1).2 (by norm_num)⟩

/-- C5: under the default thresholds, `score_disaster` adds 0.6 for
rainfall ≥ 50 or a flood override, else 0.3 for rainfall ≥ 25, else 0, plus
0.4 for wind ≥ 80, else 0.15 for wind ≥ 40, else 0, clamped to 1.0; on
rainfall 180, wind 80 and flood override the score is exactly 1.0 with the
severe-rainfall and high-winds drivers present. -/
theorem C5_score_disaster_defaults (w : Weather) (f : Bool) :
    (score_disaster w f).1 =
      min 1 ((if w.rainfall_mm ≥ 50 ∨ f = true then 6/10
              else if w.rainfall_mm ≥ 25 then 3/10 else 0) +
             (if w.wind_kph ≥ 80 then 4/10
              else if w.wind_kph ≥ 40 then 15/100 else 0))
    ∧ (score_disaster ⟨180, 80⟩ true).1 = 1
    ∧ DisasterDriver.severeRainfall 180 ∈ (score_disaster ⟨180, 80⟩ true).2
    ∧ DisasterDriver.highWinds 80 ∈ (score_disaster ⟨180, 80⟩ true).2 := by
  refine ⟨?_,
    by norm_num [score_disaster, default_rainfall_thresholds,
       default_wind_thresholds, min_def],
    by norm_num [score_disaster, default_rainfall_thresholds,
       default_wind_thresholds],
    by norm_num [score_disaster, default_rainfall_thresholds,
       default_wind_thresholds]⟩
  simp only [score_disaster, default_rainfall_thresholds,
    default_wind_thresholds]
  split_ifs <;> norm_num

/-- C8: `score_crowd` degrades missing and malformed input to a typed
result: a `None` or empty frame yields score 0.0 with the single no-data
driver, a frame without the `people` column yields score 0.0 with the
missing-column driver. -/
theorem C8_score_crowd_degrades (df : DataFrame) (ts : Bool) (area : ℚ) :
    score_crowd none ts area = (0, [CrowdDriver.noData])
    ∧ (df.isEmptyDf = true →
        score_crowd (some df) ts area = (0, [CrowdDriver.noData]))
    ∧ (df.isEmptyDf = false → df.columns.contains "people" = false →
        score_crowd (some df) ts area = (0, [CrowdDriver.missingPeople])) := by
  refine ⟨rfl, fun h => ?_, fun h hc => ?_⟩
  · simp [score_crowd, h]
  · have h' : "people" ∉ df.columns := by simpa using hc
    simp [score_crowd, h, h']

/-- Witness for C8 on concrete frames: `None`, an empty frame, and a
one-row frame lacking the `people` column. -/
theorem C8_score_crowd_degrades_witness :
    score_crowd none false 1000 = (0, [CrowdDriver.noData])
    ∧ score_crowd (some ⟨[], []⟩) false 1000 = (0, [CrowdDriver.noData])
    ∧ score_crowd (some ⟨["x"], [[("x", 1)]]⟩) false 1000 =
        (0, [CrowdDriver.missingPeople]) :=
  ⟨(C8_score_crowd_degrades ⟨[], []⟩ false 1000).1,
   (C8_score_crowd_degrades ⟨[], []⟩ false 1000).2.1 (by decide),
   (C8_score_crowd_degrades ⟨["x"], [[("x", 1)]]⟩ false 1000).2.2
     (by decide) (by decide)⟩

/-! ## Claims about the turn-direction buckets -/

/-- Helper: direction bucket on region 1 of the circle. -/
theorem bucket_region1 (a : ℚ) (hu : a < 22.5) :
    bucketCount a = 1 ∧ direction a = "Continue straight ahead" := by
  constructor
  · unfold bucketCount
    rw [if_pos (show a > 337.5 ∨ a < 22.5 from Or.inr hu),
        if_neg (show ¬((22.5:ℚ) ≤ a ∧ a < 67.5) by rintro ⟨x1, x2⟩; linarith),
        if_neg (show ¬((67.5:ℚ) ≤ a ∧ a < 112.5) by rintro ⟨x1, x2⟩; linarith),
        if_neg (show ¬((112.5:ℚ) ≤ a ∧ a < 157.5) by rintro ⟨x1, x2⟩; linarith),
        if_neg (show ¬((157.5:ℚ) ≤ a ∧ a < 202.5) by rintro ⟨x1, x2⟩; linarith),
        if_neg (show ¬((202.5:ℚ) ≤ a ∧ a < 247.5) by rintro ⟨x1, x2⟩; linarith),
        if_neg (show ¬((247.5:ℚ) ≤ a ∧ a < 292.5) by rintro ⟨x1, x2⟩; linarith),
        if_neg (show ¬((292.5:ℚ) ≤ a ∧ a < 337.5) by rintro ⟨x1, x2⟩; linarith)]
  · unfold direction
    rw [if_pos (show a > 337.5 ∨ a < 22.5 from Or.inr hu)]

/-- Helper: direction bucket on region 2 of the circle. -/
theorem bucket_region2 (a : ℚ) (hl : (22.5:ℚ) ≤ a) (hu : a < 67.5) :
    bucketCount a = 1 ∧ direction a = "Turn slightly right" := by
  constructor
  · unfold bucketCount
    rw [if_neg (show ¬(a > 337.5 ∨ a < 22.5) by rintro (x | x) <;> linarith),
        if_pos (show (22.5:ℚ) ≤ a ∧ a < 67.5 from ⟨hl, hu⟩),
        if_neg (show ¬((67.5:ℚ) ≤ a ∧ a < 112.5) by rintro ⟨x1, x2⟩; linarith),
        if_neg (show ¬((112.5:ℚ) ≤ a ∧ a < 157.5) by rintro ⟨x1, x2⟩; linarith),
        if_neg (show ¬((157.5:ℚ) ≤ a ∧ a < 202.5) by rintro ⟨x1, x2⟩; linarith),
        if_neg (show ¬((202.5:ℚ) ≤ a ∧ a < 247.5) by rintro ⟨x1, x2⟩; linarith),
        if_neg (show ¬((247.5:ℚ) ≤ a ∧ a < 292.5) by rintro ⟨x1, x2⟩; linarith),
        if_neg (show ¬((292.5:ℚ) ≤ a ∧ a < 337.5) by rintro ⟨x1, x2⟩; linarith)]
  · unfold direction
    rw [if_neg (show ¬(a > 337.5 ∨ a < 22.5) by rintro (x | x) <;> linarith),
        if_pos (show (22.5:ℚ) ≤ a ∧ a < 67.5 from ⟨hl, hu⟩)]

/-- Helper: direction bucket on region 3 of the circle. -/
theorem bucket_region3 (a : ℚ) (hl : (67.5:ℚ) ≤ a) (hu : a < 112.5) :
    bucketCount a = 1 ∧ direction a = "Turn right" := by
  constructor
  · unfold bucketCount
    rw [if_neg (show ¬(a > 337.5 ∨ a < 22.5) by rintro (x | x) <;> linarith),
        if_neg (show ¬((22.5:ℚ) ≤ a ∧ a < 67.5) by rintro ⟨x1, x2⟩; linarith),
        if_pos (show (67.5:ℚ) ≤ a ∧ a < 112.5 from ⟨hl, hu⟩),
        if_neg (show ¬((112.5:ℚ) ≤ a ∧ a < 157.5) by rintro ⟨x1, x2⟩; linarith),
        if_neg (show ¬((157.5:ℚ) ≤ a ∧ a < 202.5) by rintro ⟨x1, x2⟩; linarith),
        if_neg (show ¬((202.5:ℚ) ≤ a ∧ a < 247.5) by rintro ⟨x1, x2⟩; linarith),
        if_neg (show ¬((247.5:ℚ) ≤ a ∧ a < 292.5) by rintro ⟨x1, x2⟩; linarith),
        if_neg (show ¬((292.5:ℚ) ≤ a ∧ a < 337.5) by rintro ⟨x1, x2⟩; linarith)]
  · unfold direction
    rw [if_neg (show ¬(a > 337.5 ∨ a < 22.5) by rintro (x | x) <;> linarith),
        if_neg (show ¬((22.5:ℚ) ≤ a ∧ a < 67.5) by rintro ⟨x1, x2⟩; linarith),
        if_pos (show (67.5:ℚ) ≤ a ∧ a < 112.5 from ⟨hl, hu⟩)]

/-- Helper: direction bucket on region 4 of the circle. -/
theorem bucket_region4 (a : ℚ) (hl : (112.5:ℚ) ≤ a) (hu : a < 157.5) :
    bucketCount a = 1 ∧ direction a = "Turn sharp right" := by
  constructor
  · unfold bucketCount
    rw [if_neg (show ¬(a > 337.5 ∨ a < 22.5) by rintro (x | x) <;> linarith),
        if_neg (show ¬((22.5:ℚ) ≤ a ∧ a < 67.5) by rintro ⟨x1, x2⟩; linarith),
        if_neg (show ¬((67.5:ℚ) ≤ a ∧ a < 112.5) by rintro ⟨x1, x2⟩; linarith),
        if_pos (show (112.5:ℚ) ≤ a ∧ a < 157.5 from ⟨hl, hu⟩),
        if_neg (show ¬((157.5:ℚ) ≤ a ∧ a < 202.5) by rintro ⟨x1, x2⟩; linarith),
        if_neg (show ¬((202.5:ℚ) ≤ a ∧ a < 247.5) by rintro ⟨x1, x2⟩; linarith),
        if_neg (show ¬((247.5:ℚ) ≤ a ∧ a < 292.5) by rintro ⟨x1, x2⟩; linarith),
        if_neg (show ¬((292.5:ℚ) ≤ a ∧ a < 337.5) by rintro ⟨x1, x2⟩; linarith)]
  · unfold direction
    rw [if_neg (show ¬(a > 337.5 ∨ a < 22.5) by rintro (x | x) <;> linarith),
        if_neg (show ¬((22.5:ℚ) ≤ a ∧ a < 67.5) by rintro ⟨x1, x2⟩; linarith),
        if_neg (show ¬((67.5:ℚ) ≤ a ∧ a < 112.5) by rintro ⟨x1, x2⟩; linarith),
        if_pos (show (112.5:ℚ) ≤ a ∧ a < 157.5 from ⟨hl, hu⟩)]

/-- Helper: direction bucket on region 5 of the circle. -/
theorem bucket_region5 (a : ℚ) (hl : (157.5:ℚ) ≤ a) (hu : a < 202.5) :
    bucketCount a = 1 ∧ direction a = "Make a U-turn" := by
  constructor
  · unfold bucketCount
    rw [if_neg (show ¬(a > 337.5 ∨ a < 22.5) by rintro (x | x) <;> linarith),
        if_neg (show ¬((22.5:ℚ) ≤ a ∧ a < 67.5) by rintro ⟨x1, x2⟩; linarith),
        if_neg (show ¬((67.5:ℚ) ≤ a ∧ a < 112.5) by rintro ⟨x1, x2⟩; linarith),
        if_neg (show ¬((112.5:ℚ) ≤ a ∧ a < 157.5) by rintro ⟨x1, x2⟩; linarith),
        if_pos (show (157.5:ℚ) ≤ a ∧ a < 202.5 from ⟨hl, hu⟩),
        if_neg (show ¬((202.5:ℚ) ≤ a ∧ a < 247.5) by rintro ⟨x1, x2⟩; linarith),
        if_neg (show ¬((247.5:ℚ) ≤ a ∧ a < 292.5) by rintro ⟨x1, x2⟩; linarith),
        if_neg (show ¬((292.5:ℚ) ≤ a ∧ a < 337.5) by rintro ⟨x1, x2⟩; linarith)]
  · unfold direction
    rw [if_neg (show ¬(a > 337.5 ∨ a < 22.5) by rintro (x | x) <;> linarith),
        if_neg (show ¬((22.5:ℚ) ≤ a ∧ a < 67.5) by rintro ⟨x1, x2⟩; linarith),
        if_neg (show ¬((67.5:ℚ) ≤ a ∧ a < 112.5) by rintro ⟨x1, x2⟩; linarith),
        if_neg (show ¬((112.5:ℚ) ≤ a ∧ a < 157.5) by rintro ⟨x1, x2⟩; linarith),
        if_pos (show (157.5:ℚ) ≤ a ∧ a < 202.5 from ⟨hl, hu⟩)]

/-- Helper: direction bucket on region 6 of the circle. -/
theorem bucket_region6 (a : ℚ) (hl : (202.5:ℚ) ≤ a) (hu : a < 247.5) :
    bucketCount a = 1 ∧ direction a = "Turn sharp left" := by
  constructor
  · unfold bucketCount
    rw [if_neg (show ¬(a > 337.5 ∨ a < 22.5) by rintro (x | x) <;> linarith),
        if_neg (show ¬((22.5:ℚ) ≤ a ∧ a < 67.5) by rintro ⟨x1, x2⟩; linarith),
        if_neg (show ¬((67.5:ℚ) ≤ a ∧ a < 112.5) by rintro ⟨x1, x2⟩; linarith),
        if_neg (show ¬((112.5:ℚ) ≤ a ∧ a < 157.5) by rintro ⟨x1, x2⟩; linarith),
        if_neg (show ¬((157.5:ℚ) ≤ a ∧ a < 202.5) by rintro ⟨x1, x2⟩; linarith),
        if_pos (show (202.5:ℚ) ≤ a ∧ a < 247.5 from ⟨hl, hu⟩),
        if_neg (show ¬((247.5:ℚ) ≤ a ∧ a < 292.5) by rintro ⟨x1, x2⟩; linarith),
        if_neg (show ¬((292.5:ℚ) ≤ a ∧ a < 337.5) by rintro ⟨x1, x2⟩; linarith)]
  · unfold direction
    rw [if_neg (show ¬(a > 337.5 ∨ a < 22.5) by rintro (x | x) <;> linarith),
        if_neg (show ¬((22.5:ℚ) ≤ a ∧ a < 67.5) by rintro ⟨x1, x2⟩; linarith),
        if_neg (show ¬((67.5:ℚ) ≤ a ∧ a < 112.5) by rintro ⟨x1, x2⟩; linarith),
        if_neg (show ¬((112.5:ℚ) ≤ a ∧ a < 157.5) by rintro ⟨x1, x2⟩; linarith),
        if_neg (show ¬((157.5:ℚ) ≤ a ∧ a < 202.5) by rintro ⟨x1, x2⟩; linarith),
        if_pos (show (202.5:ℚ) ≤ a ∧ a < 247.5 from ⟨hl, hu⟩)]

/-- Helper: direction bucket on region 7 of the circle. -/
theorem bucket_region7 (a : ℚ) (hl : (247.5:ℚ) ≤ a) (hu : a < 292.5) :
    bucketCount a = 1 ∧ direction a = "Turn left" := by
  constructor
  · unfold bucketCount
    rw [if_neg (show ¬(a > 337.5 ∨ a < 22.5) by rintro (x | x) <;> linarith),
        if_neg (show ¬((22.5:ℚ) ≤ a ∧ a < 67.5) by rintro ⟨x1, x2⟩; linarith),
        if_neg (show ¬((67.5:ℚ) ≤ a ∧ a < 112.5) by rintro ⟨x1, x2⟩; linarith),
        if_neg (show ¬((112.5:ℚ) ≤ a ∧ a < 157.5) by rintro ⟨x1, x2⟩; linarith),
        if_neg (show ¬((157.5:ℚ) ≤ a ∧ a < 202.5) by rintro ⟨x1, x2⟩; linarith),
        if_neg (show ¬((202.5:ℚ) ≤ a ∧ a < 247.5) by rintro ⟨x1, x2⟩; linarith),
        if_pos (show (247.5:ℚ) ≤ a ∧ a < 292.5 from ⟨hl, hu⟩),
        if_neg (show ¬((292.5:ℚ) ≤ a ∧ a < 337.5) by rintro ⟨x1, x2⟩; linarith)]
  · unfold direction
    rw [if_neg (show ¬(a > 337.5 ∨ a < 22.5) by rintro (x | x) <;> linarith),
        if_neg (show ¬((22.5:ℚ) ≤ a ∧ a < 67.5) by rintro ⟨x1, x2⟩; linarith),
        if_neg (show ¬((67.5:ℚ) ≤ a ∧ a < 112.5) by rintro ⟨x1, x2⟩; linarith),
        if_neg (show ¬((112.5:ℚ) ≤ a ∧ a < 157.5) by rintro ⟨x1, x2⟩; linarith),
        if_neg (show ¬((157.5:ℚ) ≤ a ∧ a < 202.5) by rintro ⟨x1, x2⟩; linarith),
        if_neg (show ¬((202.5:ℚ) ≤ a ∧ a < 247.5) by rintro ⟨x1, x2⟩; linarith),
        if_pos (show (247.5:ℚ) ≤ a ∧ a < 292.5 from ⟨hl, hu⟩)]

/-- Helper: direction bucket on region 8 of the circle. -/
theorem bucket_region8 (a : ℚ) (hl : (292.5:ℚ) ≤ a) (hu : a < 337.5) :
    bucketCount a = 1 ∧ direction a = "Turn slightly left" := by
  constructor
  · unfold bucketCount
    rw [if_neg (show ¬(a > 337.5 ∨ a < 22.5) by rintro (x | x) <;> linarith),
        if_neg (show ¬((22.5:ℚ) ≤ a ∧ a < 67.5) by rintro ⟨x1, x2⟩; linarith),
        if_neg (show ¬((67.5:ℚ) ≤ a ∧ a < 112.5) by rintro ⟨x1, x2⟩; linarith),
        if_neg (show ¬((112.5:ℚ) ≤ a ∧ a < 157.5) by rintro ⟨x1, x2⟩; linarith),
        if_neg (show ¬((157.5:ℚ) ≤ a ∧ a < 202.5) by rintro ⟨x1, x2⟩; linarith),
        if_neg (show ¬((202.5:ℚ) ≤ a ∧ a < 247.5) by rintro ⟨x1, x2⟩; linarith),
        if_neg (show ¬((247.5:ℚ) ≤ a ∧ a < 292.5) by rintro ⟨x1, x2⟩; linarith),
        if_pos (show (292.5:ℚ) ≤ a ∧ a < 337.5 from ⟨hl, hu⟩)]
  · unfold direction
    rw [if_neg (show ¬(a > 337.5 ∨ a < 22.5) by rintro (x | x) <;> linarith),
        if_neg (show ¬((22.5:ℚ) ≤ a ∧ a < 67.5) by rintro ⟨x1, x2⟩; linarith),
        if_neg (show ¬((67.5:ℚ) ≤ a ∧ a < 112.5) by rintro ⟨x1, x2⟩; linarith),
        if_neg (show ¬((112.5:ℚ) ≤ a ∧ a < 157.5) by rintro ⟨x1, x2⟩; linarith),
        if_neg (show ¬((157.5:ℚ) ≤ a ∧ a < 202.5) by rintro ⟨x1, x2⟩; linarith),
        if_neg (show ¬((202.5:ℚ) ≤ a ∧ a < 247.5) by rintro ⟨x1, x2⟩; linarith),
        if_neg (show ¬((247.5:ℚ) ≤ a ∧ a < 292.5) by rintro ⟨x1, x2⟩; linarith),
        if_pos (show (292.5:ℚ) ≤ a ∧ a < 337.5 from ⟨hl, hu⟩)]

/-- Helper: direction bucket on region 9 of the circle. -/
theorem bucket_region9 (a : ℚ) (hl : a > 337.5) :
    bucketCount a = 1 ∧ direction a = "Continue straight ahead" := by
  constructor
  · unfold bucketCount
    rw [if_pos (show a > 337.5 ∨ a < 22.5 from Or.inl hl),
        if_neg (show ¬((22.5:ℚ) ≤ a ∧ a < 67.5) by rintro ⟨x1, x2⟩; linarith),
        if_neg (show ¬((67.5:ℚ) ≤ a ∧ a < 112.5) by rintro ⟨x1, x2⟩; linarith),
        if_neg (show ¬((112.5:ℚ) ≤ a ∧ a < 157.5) by rintro ⟨x1, x2⟩; linarith),
        if_neg (show ¬((157.5:ℚ) ≤ a ∧ a < 202.5) by rintro ⟨x1, x2⟩; linarith),
        if_neg (show ¬((202.5:ℚ) ≤ a ∧ a < 247.5) by rintro ⟨x1, x2⟩; linarith),
        if_neg (show ¬((247.5:ℚ) ≤ a ∧ a < 292.5) by rintro ⟨x1, x2⟩; linarith),
        if_neg (show ¬((292.5:ℚ) ≤ a ∧ a < 337.5) by rintro ⟨x1, x2⟩; linarith)]
  · unfold direction
    rw [if_pos (show a > 337.5 ∨ a < 22.5 from Or.inl hl)]


/-- C6 counterexample: the turn angle 337.5 lies in [0, 360), is produced by
`(bearing - prev_bearing + 360) % 360` (for bearing 0 after bearing 22.5),
matches none of the eight named buckets, and lands in the residual else
branch returning the bare `"Continue"` — so the buckets do not partition
[0, 360) and the else branch is reachable. -/
theorem C6_counterexample :
    turnAngle 0 22.5 = 337.5
    ∧ (0:ℚ) ≤ 337.5 ∧ (337.5:ℚ) < 360
    ∧ bucketCount 337.5 = 0
    ∧ direction 337.5 = "Continue" := by
  refine ⟨?_, by norm_num, by norm_num, ?_, ?_⟩
  · norm_num [turnAngle, pyMod]
  · norm_num [bucketCount]
  · norm_num [direction]

/-- C6 (amended): the eight named turn-direction buckets cover [0, 360)
except the single point 337.5: away from it exactly one bucket matches and
the residual else branch is not taken. -/
theorem C6_buckets_partition (a : ℚ) (h0 : 0 ≤ a) (h1 : a < 360)
    (hne : a ≠ 337.5) :
    bucketCount a = 1 ∧ direction a ≠ "Continue" := by
  rcases lt_or_le a 22.5 with h | hb1
  · obtain ⟨hc, hd⟩ := bucket_region1 a h
    exact ⟨hc, by rw [hd]; decide⟩
  rcases lt_or_le a 67.5 with h | hb2
  · obtain ⟨hc, hd⟩ := bucket_region2 a hb1 h
    exact ⟨hc, by rw [hd]; decide⟩
  rcases lt_or_le a 112.5 with h | hb3
  · obtain ⟨hc, hd⟩ := bucket_region3 a hb2 h
    exact ⟨hc, by rw [hd]; decide⟩
  rcases lt_or_le a 157.5 with h | hb4
  · obtain ⟨hc, hd⟩ := bucket_region4 a hb3 h
    exact ⟨hc, by rw [hd]; decide⟩
  rcases lt_or_le a 202.5 with h | hb5
  · obtain ⟨hc, hd⟩ := bucket_region5 a hb4 h
    exact ⟨hc, by rw [hd]; decide⟩
  rcases lt_or_le a 247.5 with h | hb6
  · obtain ⟨hc, hd⟩ := bucket_region6 a hb5 h
    exact ⟨hc, by rw [hd]; decide⟩
  rcases lt_or_le a 292.5 with h | hb7
  · obtain ⟨hc, hd⟩ := bucket_region7 a hb6 h
    exact ⟨hc, by rw [hd]; decide⟩
  rcases lt_or_le a 337.5 with h | hb8
  · obtain ⟨hc, hd⟩ := bucket_region8 a hb7 h
    exact ⟨hc, by rw [hd]; decide⟩
  have hgt : a > 337.5 := lt_of_le_of_ne hb8 (Ne.symm hne)
  obtain ⟨hc, hd⟩ := bucket_region9 a hgt
  exact ⟨hc, by rw [hd]; decide⟩

/-- Witness for the amended C6 at concrete angles in two regions. -/
theorem C6_buckets_partition_witness :
    (bucketCount 0 = 1 ∧ direction 0 ≠ "Continue")
    ∧ (bucketCount 90 = 1 ∧ direction 90 ≠ "Continue") :=
  ⟨C6_buckets_partition 0 (by norm_num) (by norm_num) (by norm_num),
   C6_buckets_partition 90 (by norm_num) (by norm_num) (by norm_num)⟩

/-! ## Claims about the routing entry points -/

/-- Helper: the straight-line fallback always has `steps + 1` points. -/
theorem grid_route_fallback_length (o t : Coord) (steps : ℕ) :
    (grid_route_fallback o t steps).length = steps + 1 := by
  unfold grid_route_fallback
  rw [List.length_map, List.length_range]

theorem bfsAux_ne_nil (g : NXGraph) :
    ∀ (fuel : ℕ) (queue : List (Node × List Node)) (visited : List Node)
      (tgt : Node) (p : List Node),
      (∀ e ∈ queue, e.2 ≠ []) → bfsAux g fuel queue visited tgt = some p →
      p ≠ [] := by
  intro fuel
  induction fuel with
  | zero => intro queue visited tgt p _ h; cases h
  | succ n ih =>
    intro queue visited tgt p hq h
    cases queue with
    | nil => cases h
    | cons e rest =>
      obtain ⟨nd, path⟩ := e
      rw [bfsAux] at h
      split_ifs at h with heq
      · obtain rfl : path.reverse = p := by injection h
        have : path ≠ [] := hq (nd, path) (List.mem_cons_self _ _)
        simpa using this
      · refine ih _ _ _ _ ?_ h
        intro e' he'
        rcases List.mem_append.mp he' with hmem | hmem
        · exact hq e' (List.mem_cons_of_mem _ hmem)
        · obtain ⟨m, _, rfl⟩ := List.mem_map.mp hmem
          simp

theorem shortest_path_ne_nil (g : NXGraph) (s t : Node) (p : List Node)
    (h : shortest_path g s t = some p) : p ≠ [] := by
  unfold shortest_path at h
  split_ifs at h
  exact bfsAux_ne_nil g _ _ _ _ p (by simp) h

theorem compute_shortest_path_length_pos (G : GraphArg) (o t : Coord) :
    1 ≤ (compute_shortest_path G o t).length := by
  cases G with
  | null => simp [compute_shortest_path, grid_route_fallback_length]
  | nxg g =>
    unfold compute_shortest_path
    dsimp only
    generalize nearest_node g o = r1
    generalize nearest_node g t = r2
    cases r1 with
    | none => simp [grid_route_fallback_length]
    | some src =>
      cases r2 with
      | none => simp [grid_route_fallback_length]
      | some dst =>
        generalize hsp : shortest_path g src dst = rp
        cases rp with
        | none => simp [hsp, grid_route_fallback_length]
        | some p =>
          have hp : p ≠ [] := shortest_path_ne_nil g src dst p hsp
          simp only [hsp]
          try dsimp only
          split_ifs with hcond
          · simp [grid_route_fallback_length]
          · rw [List.length_map]
            exact List.length_pos.mpr hp
  | dict nodes => simp [compute_shortest_path, grid_route_fallback_length]
  | tup2 g n => simp [compute_shortest_path, grid_route_fallback_length]


/-- Helper: every route from `compute_safest_path` has at least one
point. -/
theorem compute_safest_path_length_pos (G : GraphArg) (o t : Coord)
    (hz : Option (List Hazard)) :
    1 ≤ (compute_safest_path G o t hz).length := by
  cases G with
  | null => simp [compute_safest_path, grid_route_fallback_length]
  | nxg g => exact compute_shortest_path_length_pos _ o t
  | dict nodes => exact compute_shortest_path_length_pos _ o t
  | tup2 g n => exact compute_shortest_path_length_pos _ o t

/-- Helper: for a non-graph argument the shortest-path entry point returns
the straight-line fallback. -/
theorem compute_shortest_path_non_nx (G : GraphArg) (o t : Coord)
    (h : G.isNxGraph = false) :
    compute_shortest_path G o t = grid_route_fallback o t := by
  cases G with
  | null => rfl
  | nxg g => exact Bool.noConfusion h
  | dict nodes => rfl
  | tup2 g n => rfl

/-- Helper: `block_edges_by_hazards` returns a non-networkx argument
unchanged. -/
theorem block_edges_non_nx (G : GraphArg) (hz : Option (List Hazard))
    (h : G.isNxGraph = false) :
    (block_edges_by_hazards G hz).1 = G := by
  cases G with
  | null => cases hz <;> rfl
  | nxg g => exact Bool.noConfusion h
  | dict nodes => cases hz <;> rfl
  | tup2 g n => cases hz <;> rfl

/-- Helper: for a non-graph argument the safest-path entry point returns
the straight-line fallback. -/
theorem compute_safest_path_non_nx (G : GraphArg) (o t : Coord)
    (hz : Option (List Hazard)) (h : G.isNxGraph = false) :
    compute_safest_path G o t hz = grid_route_fallback o t := by
  cases G with
  | null => rfl
  | nxg g => exact Bool.noConfusion h
  | dict nodes =>
    unfold compute_safest_path
    dsimp only
    rw [block_edges_non_nx _ hz h]
    exact compute_shortest_path_non_nx _ o t h
  | tup2 g n =>
    unfold compute_safest_path
    dsimp only
    rw [block_edges_non_nx _ hz h]
    exact compute_shortest_path_non_nx _ o t h

/-- C1 counterexample: with a networkx graph and well-formed distinct
origin/target that snap to the same nearest node (here a one-node graph,
where every query snaps to that node), `nx.shortest_path(G, s, s) = [s]`
and all three entry points return a single-point route — the claimed lower
bound of 2 fails. -/
theorem C1_counterexample :
    (compute_shortest_path
        (.nxg ⟨[Node.tup 0 0], fun _ => none, fun _ => none, []⟩)
        (0, 0) (1, 1)).length = 1
    ∧ (compute_fastest_path
        (.nxg ⟨[Node.tup 0 0], fun _ => none, fun _ => none, []⟩)
        (0, 0) (1, 1)).length = 1
    ∧ (compute_safest_path
        (.nxg ⟨[Node.tup 0 0], fun _ => none, fun _ => none, []⟩)
        (0, 0) (1, 1) none).length = 1 :=
  ⟨rfl, rfl, rfl⟩

/-- C1 (amended): every routing entry point returns a route with at least
one point for every graph argument; the route has at least two points
whenever the argument is not a networkx graph (null, dict fallback, or the
tuple value), while with a networkx graph it can degenerate to a single
point when origin and target resolve to the same nearest node. -/
theorem C1_route_length_amended (G : GraphArg) (o t : Coord)
    (hz : Option (List Hazard)) :
    1 ≤ (compute_shortest_path G o t).length
    ∧ 1 ≤ (compute_fastest_path G o t).length
    ∧ 1 ≤ (compute_safest_path G o t hz).length
    ∧ (G.isNxGraph = false →
        2 ≤ (compute_shortest_path G o t).length
        ∧ 2 ≤ (compute_fastest_path G o t).length
        ∧ 2 ≤ (compute_safest_path G o t hz).length) := by
  refine ⟨compute_shortest_path_length_pos G o t,
    compute_shortest_path_length_pos G o t,
    compute_safest_path_length_pos G o t hz, fun h => ?_⟩
  have h1 : compute_shortest_path G o t = grid_route_fallback o t :=
    compute_shortest_path_non_nx G o t h
  have h2 : compute_safest_path G o t hz = grid_route_fallback o t :=
    compute_safest_path_non_nx G o t hz h
  refine ⟨?_, ?_, ?_⟩
  · rw [h1, grid_route_fallback_length]; omega
  · rw [compute_fastest_path, h1, grid_route_fallback_length]; omega
  · rw [h2, grid_route_fallback_length]; omega

/-- Witness for the amended C1 at a null graph. -/
theorem C1_route_length_amended_witness :
    2 ≤ (compute_shortest_path .null (0, 0) (1, 1)).length
    ∧ 1 ≤ (compute_safest_path .null (0, 0) (1, 1) none).length :=
  ⟨((C1_route_length_amended .null (0, 0) (1, 1) none).2.2.2 rfl).1,
   (C1_route_length_amended .null (0, 0) (1, 1) none).2.2.1⟩

/-- C3: hazard pruning only removes edges — the pruned graph edge set is a
sublist of the input edge set and never longer. -/
theorem C3_block_edges_subset (G : GraphArg) (hz : Option (List Hazard)) :
    ((block_edges_by_hazards G hz).1.edgeList ⊆ G.edgeList)
    ∧ (block_edges_by_hazards G hz).1.edgeList.length ≤
        G.edgeList.length := by
  cases G with
  | null => cases hz <;> exact ⟨fun e he => he, le_rfl⟩
  | nxg g =>
    cases hz with
    | none => exact ⟨fun e he => he, le_rfl⟩
    | some hs =>
      unfold block_edges_by_hazards
      dsimp only
      split_ifs with hemp
      · exact ⟨fun e he => he, le_rfl⟩
      · exact ⟨(List.filter_sublist _).subset, (List.filter_sublist _).length_le⟩
  | dict nodes => cases hz <;> exact ⟨fun e he => he, le_rfl⟩
  | tup2 g n => cases hz <;> exact ⟨fun e he => he, le_rfl⟩

/-- C4: with a null graph the route is exactly the 31-point straight-line
interpolation between (10.0, 76.0) and (10.01, 76.01) — point i is
origin + (i/30)·(target − origin), the first point is the origin, the point
at the last index 30 is the target — and the fastest and safest modes
return the same route. -/
theorem C4_null_graph_straight_line :
    compute_shortest_path .null (10, 76) (1001/100, 7601/100) =
      (List.range 31).map (fun (i : ℕ) =>
        ((10 : ℚ) + (i : ℚ) / 30 * (1001/100 - 10),
         (76 : ℚ) + (i : ℚ) / 30 * (7601/100 - 76)))
    ∧ (compute_shortest_path .null (10, 76) (1001/100, 7601/100)).length = 31
    ∧ (compute_shortest_path .null (10, 76) (1001/100, 7601/100))[0]? =
        some (10, 76)
    ∧ (compute_shortest_path .null (10, 76) (1001/100, 7601/100))[30]? =
        some (1001/100, 7601/100)
    ∧ compute_fastest_path .null (10, 76) (1001/100, 7601/100) =
        compute_shortest_path .null (10, 76) (1001/100, 7601/100)
    ∧ ∀ hz, compute_safest_path .null (10, 76) (1001/100, 7601/100) hz =
        compute_shortest_path .null (10, 76) (1001/100, 7601/100) := by
  have hroute : compute_shortest_path .null (10, 76) (1001/100, 7601/100) =
      grid_route_fallback (10, 76) (1001/100, 7601/100) 30 := rfl
  refine ⟨?_, ?_, ?_, ?_, rfl, fun hz => rfl⟩
  · rw [hroute]
    unfold grid_route_fallback
    refine List.map_congr_left fun i hi => ?_
    dsimp only
    simp only [Prod.mk.injEq]
    constructor <;> ring
  · rw [hroute, grid_route_fallback_length]
  · rw [hroute]
    unfold grid_route_fallback
    rw [List.getElem?_map, List.getElem?_range] <;> norm_num
  · rw [hroute]
    unfold grid_route_fallback
    rw [List.getElem?_map, List.getElem?_range] <;> norm_num

/-- Helper: grid node attributes are the `gridCoord` placement for in-range
indices. -/
theorem build_grid_graph_attr (size : ℕ) (cp : Option Coord) (i j : ℕ)
    (hi : i < size) (hj : j < size) :
    (build_grid_graph size cp).attrY (Node.tup (i : ℤ) (j : ℤ)) =
      some (gridCoord size cp (i : ℤ) (j : ℤ)).1
    ∧ (build_grid_graph size cp).attrX (Node.tup (i : ℤ) (j : ℤ)) =
      some (gridCoord size cp (i : ℤ) (j : ℤ)).2 := by
  unfold build_grid_graph
  dsimp only
  rw [if_pos]
  · exact ⟨rfl, rfl⟩
  · exact ⟨by exact_mod_cast Nat.zero_le i, by exact_mod_cast hi,
      by exact_mod_cast Nat.zero_le j, by exact_mod_cast hj⟩

/-- C9 counterexample: with no center point, the offline path of
`load_graph` builds the grid with the original `None` center, so node
(0, 0) carries the raw coordinates (0, 0) — not coordinates offset from the
documented reference point. -/
theorem C9_counterexample :
    load_graph true false (fun _ => none) none =
      .nxg (build_grid_graph 10 none)
    ∧ (build_grid_graph 10 none).attrY (Node.tup 0 0) = some 0
    ∧ (build_grid_graph 10 none).attrX (Node.tup 0 0) = some 0
    ∧ (build_grid_graph 10 none).attrY (Node.tup 0 0) ≠
        some (gridCoord 10 (some reference_point) 0 0).1 := by
  have ha := build_grid_graph_attr 10 none 0 0 (by norm_num) (by norm_num)
  refine ⟨rfl, ?_, ?_, ?_⟩
  · rw [(by exact_mod_cast ha.1 :
      (build_grid_graph 10 none).attrY (Node.tup 0 0) =
        some (gridCoord 10 none 0 0).1)]
    simp [gridCoord]
  · rw [(by exact_mod_cast ha.2 :
      (build_grid_graph 10 none).attrX (Node.tup 0 0) =
        some (gridCoord 10 none 0 0).2)]
    simp [gridCoord]
  · rw [(by exact_mod_cast ha.1 :
      (build_grid_graph 10 none).attrY (Node.tup 0 0) =
        some (gridCoord 10 none 0 0).1)]
    simp only [gridCoord, reference_point, Option.some.injEq]
    norm_num

/-- C9 (amended): `load_graph` never fails when no center is supplied — the
online fetch defaults its center to the documented reference point
(9.931233, 76.267304), but every grid-synthesis path passes the original
`None` center through, so offline grid nodes carry raw index coordinates
(i, j); nodes are offset from a center only when one is supplied. -/
theorem C9_default_center (fetch : Coord → Option NXGraph) (i j : Fin 10) :
    load_graph true true fetch none =
      (match fetch reference_point with
       | some G => .nxg G
       | none => .nxg (build_grid_graph 10 none))
    ∧ load_graph true false fetch none = .nxg (build_grid_graph 10 none)
    ∧ load_graph false true fetch none = .nxg (build_grid_graph 10 none)
    ∧ load_graph false false fetch none = .nxg (build_grid_graph 10 none)
    ∧ (build_grid_graph 10 none).attrY
        (Node.tup (i.val : ℤ) (j.val : ℤ)) = some ((i.val : ℚ))
    ∧ (build_grid_graph 10 none).attrX
        (Node.tup (i.val : ℤ) (j.val : ℤ)) = some ((j.val : ℚ))
    ∧ (build_grid_graph 10 (some reference_point)).attrY
        (Node.tup (i.val : ℤ) (j.val : ℤ)) =
        some (reference_point.1 + ((i.val : ℚ) - 5) * (5/1000)) := by
  obtain ⟨hy, hx⟩ := build_grid_graph_attr 10 none i.val j.val i.isLt j.isLt
  obtain ⟨hy', _⟩ :=
    build_grid_graph_attr 10 (some reference_point) i.val j.val i.isLt j.isLt
  refine ⟨rfl, rfl, rfl, rfl, ?_, ?_, ?_⟩
  · rw [hy]; simp [gridCoord]
  · rw [hx]; simp [gridCoord]
  · rw [hy']
    simp only [gridCoord, Option.some.injEq]
    push_cast
    norm_num

/-- C10: whenever a non-null hazard set is supplied, the app's routing
block binds `G_blocked` to the `(graph, blocked_count)` tuple returned by
`block_edges_by_hazards`, so for every graph and every routing mode the
resulting route is exactly the 31-point straight-line fallback
`grid_route_fallback(origin, target)` — the graph search never runs. -/
theorem C10_tuple_route (G : GraphArg) (hs : List Hazard)
    (mode : RouteMode) (o t : Coord) :
    app_route_block G (some hs) mode o t = grid_route_fallback o t
    ∧ (app_route_block G (some hs) mode o t).length = 31 := by
  have h : app_route_block G (some hs) mode o t = grid_route_fallback o t := by
    cases mode <;>
      simp only [app_route_block, compute_fastest_path, compute_safest_path,
        compute_shortest_path, block_edges_by_hazards, ite_self]
  exact ⟨h, by rw [h]; exact grid_route_fallback_length o t 30⟩

end CrowdShield
